import Mathlib

/-!
Shallow embedding of the contact validation and authorization logic of
`src/contacts/contacts.py` (Bank-of-Anthos contacts service).

Strings are modelled as lists of characters (`PyStr`).  The regular
expression checks of `_validate_new_contact` are translated according to
Python `re.match` semantics:

* `\A[0-9]{n}\Z` matches exactly the strings of length `n` whose
  characters are all ASCII digits (`\Z` matches only at the very end of
  the string);
* `^[0-9a-zA-Z][0-9a-zA-Z ]{0,29}$` — note that in Python `$` matches at
  the end of the string *or just before a newline at the end of the
  string*, so this pattern also accepts a matching body followed by one
  trailing newline character.

Exceptions are modelled with `Except`; the distinct Python exception
classes used by the handler (`UserWarning`, `ValueError`,
`SQLAlchemyError`, `KeyError`) become constructors of `PyExc`, carrying
the literal message strings raised by the source.  The contact store is
modelled as the owner's list of rows; fetch/insert failures of the
SQLAlchemy gateway are modelled by boolean flags that make the
corresponding step raise `sqlAlchemyError`.
-/

/-- A Python string, modelled as its list of characters. -/
abbrev PyStr := List Char

/-- One stored contact row (columns of the `contacts` table relevant to the
core, minus the owning `username` which keys the store). -/
structure Contact where
  label : PyStr
  account_num : PyStr
  routing_num : PyStr
  is_external : Bool
deriving DecidableEq, Repr

/-- The candidate payload of an add-contact request: a dict whose four
expected keys may each be absent. -/
structure ContactReq where
  label : Option PyStr
  account_num : Option PyStr
  routing_num : Option PyStr
  is_external : Option Bool
deriving DecidableEq, Repr

/-- The Python exceptions that the add-contact handler distinguishes. -/
inductive PyExc where
  | userWarning (msg : String)
  | valueError (msg : String)
  | sqlAlchemyError
  | keyError
deriving DecidableEq, Repr

/-- Python `re.match(r'\A[0-9]{n}\Z', s)`: `s` is exactly `n` ASCII
digits. -/
def reMatchDigits (n : Nat) (s : PyStr) : Bool :=
  s.length == n && s.all Char.isDigit

/-- A character allowed in the body of a label: `[0-9a-zA-Z ]`. -/
def isLabelBodyChar (c : Char) : Bool :=
  c.isAlphanum || c == ' '

/-- Full match of `[0-9a-zA-Z][0-9a-zA-Z ]{0,29}` against a whole
string. -/
def labelCore : PyStr → Bool
  | [] => false
  | c :: cs => c.isAlphanum && decide (cs.length ≤ 29) && cs.all isLabelBodyChar

/-- Python `re.match(r'^[0-9a-zA-Z][0-9a-zA-Z ]{0,29}$', s)`.  Python `$`
also matches just before a newline at the end of the string, so a body
match followed by one trailing `'\n'` is accepted. -/
def reMatchLabel (s : PyStr) : Bool :=
  labelCore s || (s.getLast? == some '\n' && labelCore s.dropLast)

/-- `_validate_new_contact(req)`: presence check, then account-number,
routing-number, external-routing and label checks, raising
`UserWarning` with the source's literal messages. -/
def validate_new_contact (local_routing : PyStr) (req : ContactReq) :
    Except PyExc Unit :=
  match req.label, req.account_num, req.routing_num, req.is_external with
  | some label, some account_num, some routing_num, some is_external =>
    if !reMatchDigits 10 account_num then
      Except.error (PyExc.userWarning "invalid account number")
    else if !reMatchDigits 9 routing_num then
      Except.error (PyExc.userWarning "invalid routing number")
    else if is_external && routing_num == local_routing then
      Except.error (PyExc.userWarning "invalid routing number")
    else if !reMatchLabel label then
      Except.error (PyExc.userWarning "invalid account label")
    else
      Except.ok ()
  | _, _, _, _ => Except.error (PyExc.userWarning "missing required field(s)")

/-- The loop body of `_check_contact_allowed`: scan the fetched contacts
in stored order; for each entry first compare the
`(account_num, routing_num)` pair, then the label. -/
def duplicate_scan (req : Contact) : List Contact → Except PyExc Unit
  | [] => Except.ok ()
  | contact :: rest =>
    if contact.account_num == req.account_num &&
        contact.routing_num == req.routing_num then
      Except.error (PyExc.valueError "account already exists as a contact")
    else if contact.label == req.label then
      Except.error (PyExc.valueError "contact already exists with that label")
    else
      duplicate_scan req rest

/-- `_check_contact_allowed(username, accountid, req)`: self-reference
check first, then the fetch of the owner's contacts (whose outcome is
passed in as `fetched`), then the duplicate scan. -/
def check_contact_allowed (local_routing accountid : PyStr) (req : Contact)
    (fetched : Except PyExc (List Contact)) : Except PyExc Unit :=
  if req.account_num == accountid && req.routing_num == local_routing then
    Except.error (PyExc.valueError "may not add yourself to contacts")
  else
    match fetched with
    | Except.error e => Except.error e
    | Except.ok contacts => duplicate_scan req contacts

/-- Read the four fields out of the request dict; `none` when any key is
absent (a dict access on a missing key would raise `KeyError`). -/
def toContact (req : ContactReq) : Option Contact :=
  match req.label, req.account_num, req.routing_num, req.is_external with
  | some l, some a, some r, some e => some ⟨l, a, r, e⟩
  | _, _, _, _ => none

/-- An HTTP response: status code and message body. -/
structure HttpResponse where
  status : Nat
  body : String
deriving DecidableEq, Repr

/-- The `try` body of the add-contact handler after authentication:
validate, authorize (fetching the owner's current rows), then insert.
`fetchFails` / `insertFails` make the corresponding gateway step raise
`SQLAlchemyError`.  Returns the new store contents on success. -/
def add_contact_flow (local_routing accountid : PyStr) (req : ContactReq)
    (store : List Contact) (fetchFails insertFails : Bool) :
    Except PyExc (List Contact) := do
  let _ ← validate_new_contact local_routing req
  match toContact req with
  | none => Except.error PyExc.keyError
  | some c => do
    let _ ← check_contact_allowed local_routing accountid c
      (if fetchFails then Except.error PyExc.sqlAlchemyError
       else Except.ok store)
    if insertFails then Except.error PyExc.sqlAlchemyError
    else Except.ok (store ++ [c])

/-- The add-contact handler's exception mapping: success produces 201,
`UserWarning` 400, `ValueError` 409, `SQLAlchemyError` 500 (with the
handler's own message); an uncaught exception is the framework's 500.
Returns the response together with the store contents afterwards. -/
def add_contact (local_routing accountid : PyStr) (req : ContactReq)
    (store : List Contact) (fetchFails insertFails : Bool) :
    HttpResponse × List Contact :=
  match add_contact_flow local_routing accountid req store fetchFails insertFails with
  | Except.ok newStore => ({ status := 201, body := "" }, newStore)
  | Except.error (PyExc.userWarning m) => ({ status := 400, body := m }, store)
  | Except.error (PyExc.valueError m) => ({ status := 409, body := m }, store)
  | Except.error PyExc.sqlAlchemyError =>
      ({ status := 500, body := "failed to add contact" }, store)
  | Except.error PyExc.keyError =>
      ({ status := 500, body := "internal server error" }, store)

/-- The label rule as the specification words it: starts with an
alphanumeric, 1–30 characters total, only alphanumerics and spaces
thereafter. -/
def specLabelOk : PyStr → Bool
  | [] => false
  | c :: cs =>
    c.isAlphanum && decide (cs.length + 1 ≤ 30) &&
      cs.all (fun d => d.isAlphanum || d == ' ')

/-! ## Helper lemmas -/

/-- `reMatchDigits n` is the "exactly `n` ASCII digits" predicate. -/
theorem reMatchDigits_iff (n : Nat) (s : PyStr) :
    reMatchDigits n s = true ↔ (s.length = n ∧ ∀ c ∈ s, c.isDigit = true) := by
  simp [reMatchDigits, List.all_eq_true]

/-- The spec's wording of the label body rule coincides with the
regex core. -/
theorem specLabelOk_eq_labelCore (s : PyStr) : specLabelOk s = labelCore s := by
  cases s with
  | nil => rfl
  | cons c cs =>
    have h : decide (cs.length + 1 ≤ 30) = decide (cs.length ≤ 29) := by
      simp [Nat.succ_le_succ_iff]
    simp only [specLabelOk, labelCore, h]
    rfl

/-! ## Claims -/

/-- C3: `validate` checks presence first, then account number, routing
number, external-routing and label, in that order; the first failing
check determines the reported error, and a candidate missing any of the
four required fields fails with `MissingField` regardless of the values
of the fields that are present. -/
theorem validate_missing_field_and_order (lr : PyStr) (req : ContactReq) :
    ((req.label = none ∨ req.account_num = none ∨ req.routing_num = none ∨
        req.is_external = none) →
      validate_new_contact lr req =
        Except.error (PyExc.userWarning "missing required field(s)"))
  ∧ (∀ l a r e, req = ⟨some l, some a, some r, some e⟩ →
      (reMatchDigits 10 a = false →
        validate_new_contact lr req =
          Except.error (PyExc.userWarning "invalid account number"))
    ∧ (reMatchDigits 10 a = true → reMatchDigits 9 r = false →
        validate_new_contact lr req =
          Except.error (PyExc.userWarning "invalid routing number"))
    ∧ (reMatchDigits 10 a = true → reMatchDigits 9 r = true →
        (e && r == lr) = true →
        validate_new_contact lr req =
          Except.error (PyExc.userWarning "invalid routing number"))
    ∧ (reMatchDigits 10 a = true → reMatchDigits 9 r = true →
        (e && r == lr) = false → reMatchLabel l = false →
        validate_new_contact lr req =
          Except.error (PyExc.userWarning "invalid account label"))
    ∧ (reMatchDigits 10 a = true → reMatchDigits 9 r = true →
        (e && r == lr) = false → reMatchLabel l = true →
        validate_new_contact lr req = Except.ok ())) := by
  obtain ⟨l?, a?, r?, e?⟩ := req
  constructor
  · intro h
    cases l? <;> cases a? <;> cases r? <;> cases e? <;> simp_all [validate_new_contact]
  · rintro l a r e ⟨rfl, rfl, rfl, rfl⟩
    refine ⟨?_, ?_, ?_, ?_, ?_⟩
    · intro h10
      simp [validate_new_contact, h10]
    · intro h10 h9
      simp [validate_new_contact, h10, h9]
    · intro h10 h9 hx
      simp [validate_new_contact, h10, h9, hx]
    · intro h10 h9 hx hl
      simp [validate_new_contact, h10, h9, hx, hl]
    · intro h10 h9 hx hl
      simp [validate_new_contact, h10, h9, hx, hl]

/-- Witness for C3: a request missing `account_num` is rejected with the
missing-field message even though its other fields are valid. -/
theorem validate_missing_field_and_order_witness :
    validate_new_contact ("883745000".data)
      ⟨some ("Savings".data), none, some ("111000025".data), some true⟩ =
      Except.error (PyExc.userWarning "missing required field(s)") :=
  (validate_missing_field_and_order ("883745000".data)
    ⟨some ("Savings".data), none, some ("111000025".data), some true⟩).1
    (Or.inr (Or.inl rfl))

/-- C4: a candidate whose `account_num` equals the owner's account id and
whose `routing_num` equals the local routing number is rejected as a
self-reference, whatever the fetched contact list (or fetch outcome)
is. -/
theorem check_self_reference (lr acct : PyStr) (cand : Contact)
    (fetched : Except PyExc (List Contact))
    (h1 : cand.account_num = acct) (h2 : cand.routing_num = lr) :
    check_contact_allowed lr acct cand fetched =
      Except.error (PyExc.valueError "may not add yourself to contacts") := by
  simp [check_contact_allowed, h1, h2]

/-- Witness for C4: the spec's own example, with an empty existing
list. -/
theorem check_self_reference_witness :
    check_contact_allowed ("883745000".data) ("1234567890".data)
      ⟨"mine".data, "1234567890".data, "883745000".data, false⟩
      (Except.ok []) =
      Except.error (PyExc.valueError "may not add yourself to contacts") :=
  check_self_reference ("883745000".data) ("1234567890".data)
    ⟨"mine".data, "1234567890".data, "883745000".data, false⟩
    (Except.ok []) rfl rfl

/-- C10: the self-reference check precedes the store read: a
self-referencing candidate is rejected with the self-reference error
even when the fetch step fails with a store error. -/
theorem self_reference_precedes_store_error (lr acct : PyStr) (cand : Contact)
    (h1 : cand.account_num = acct) (h2 : cand.routing_num = lr) :
    check_contact_allowed lr acct cand (Except.error PyExc.sqlAlchemyError) =
      Except.error (PyExc.valueError "may not add yourself to contacts") := by
  simp [check_contact_allowed, h1, h2]

/-- Witness for C10: a failing fetch does not mask the self-reference
error. -/
theorem self_reference_precedes_store_error_witness :
    check_contact_allowed ("883745000".data) ("1234567890".data)
      ⟨"mine".data, "1234567890".data, "883745000".data, false⟩
      (Except.error PyExc.sqlAlchemyError) =
      Except.error (PyExc.valueError "may not add yourself to contacts") :=
  self_reference_precedes_store_error ("883745000".data) ("1234567890".data)
    ⟨"mine".data, "1234567890".data, "883745000".data, false⟩ rfl rfl

/-- C5: an external candidate whose routing number equals the local
routing number fails with the invalid-routing-number message, whether or
not that routing number is a well-formed 9-digit string (a malformed one
is caught by the 9-digit check, which raises the same message). -/
theorem validate_external_local_routing (lr l a : PyStr)
    (ha : reMatchDigits 10 a = true) :
    validate_new_contact lr ⟨some l, some a, some lr, some true⟩ =
      Except.error (PyExc.userWarning "invalid routing number") := by
  cases hr : reMatchDigits 9 lr <;> simp [validate_new_contact, ha, hr]

/-- Witness for C5: the local routing number here is not even 9 digits,
and the candidate is still rejected with the invalid-routing-number
message. -/
theorem validate_external_local_routing_witness :
    validate_new_contact ("12".data)
      ⟨some ("Savings".data), some ("1234567890".data), some ("12".data),
       some true⟩ =
      Except.error (PyExc.userWarning "invalid routing number") :=
  validate_external_local_routing ("12".data) ("Savings".data)
    ("1234567890".data) rfl

/-- C8: with all fields present, `validate` reports the
invalid-account-number error exactly when `account_num` is not a string
of exactly 10 digits. -/
theorem validate_account_num_iff (lr l a r : PyStr) (e : Bool) :
    (validate_new_contact lr ⟨some l, some a, some r, some e⟩ =
        Except.error (PyExc.userWarning "invalid account number"))
      ↔ ¬(a.length = 10 ∧ ∀ c ∈ a, c.isDigit = true) := by
  rw [← reMatchDigits_iff]
  cases h10 : reMatchDigits 10 a
  · simp [validate_new_contact, h10]
  · have hne : validate_new_contact lr ⟨some l, some a, some r, some e⟩ ≠
        Except.error (PyExc.userWarning "invalid account number") := by
      cases hr : reMatchDigits 9 r <;> cases hx : (e && r == lr) <;>
        cases hl : reMatchLabel l <;>
        simp [validate_new_contact, h10, hr, hx, hl]
    simp [h10, hne]

/-- C9: a non-self-referencing candidate that shares no
`(account_num, routing_num)` pair and no label with any entry of the
existing list is authorized. -/
theorem authorize_no_conflicts_ok (lr acct : PyStr) (cand : Contact)
    (existing : List Contact)
    (hself : ¬(cand.account_num = acct ∧ cand.routing_num = lr))
    (hdup : ∀ c ∈ existing,
      ¬(c.account_num = cand.account_num ∧ c.routing_num = cand.routing_num))
    (hlab : ∀ c ∈ existing, c.label ≠ cand.label) :
    check_contact_allowed lr acct cand (Except.ok existing) = Except.ok () := by
  have hb : (cand.account_num == acct && cand.routing_num == lr) = false := by
    cases hA : cand.account_num == acct <;> cases hR : cand.routing_num == lr <;>
      simp_all [beq_iff_eq]
  simp only [check_contact_allowed, hb, Bool.false_eq_true, if_false]
  induction existing with
  | nil => rfl
  | cons c rest ih =>
    have h1 := hdup c (List.mem_cons_self c rest)
    have h2 := hlab c (List.mem_cons_self c rest)
    have hc1 : (c.account_num == cand.account_num &&
        c.routing_num == cand.routing_num) = false := by
      cases hA : c.account_num == cand.account_num <;>
        cases hR : c.routing_num == cand.routing_num <;>
        simp_all [beq_iff_eq]
    have hc2 : (c.label == cand.label) = false := by
      simpa [beq_eq_false_iff_ne] using h2
    simp only [duplicate_scan, hc1, hc2, Bool.false_eq_true, if_false]
    exact ih (fun d hd => hdup d (List.mem_cons_of_mem c hd))
      (fun d hd => hlab d (List.mem_cons_of_mem c hd))

/-- Witness for C9: a candidate with no conflicts against a non-empty
existing list is accepted. -/
theorem authorize_no_conflicts_ok_witness :
    check_contact_allowed ("883745000".data) ("1234567890".data)
      ⟨"carol".data, "5555555555".data, "111000025".data, true⟩
      (Except.ok [⟨"bob".data, "1111111111".data, "222222222".data, false⟩]) =
      Except.ok () :=
  authorize_no_conflicts_ok ("883745000".data) ("1234567890".data)
    ⟨"carol".data, "5555555555".data, "111000025".data, true⟩
    [⟨"bob".data, "1111111111".data, "222222222".data, false⟩]
    (by decide) (by decide) (by decide)

/-- C6: when the add-contact operation fails with a field error (mapped
to 400) or an authorization error (mapped to 409), the contact store is
left unchanged. -/
theorem add_contact_no_partial_writes (lr acct : PyStr) (req : ContactReq)
    (store : List Contact) (fetchFails insertFails : Bool)
    (h : (add_contact lr acct req store fetchFails insertFails).1.status = 400 ∨
         (add_contact lr acct req store fetchFails insertFails).1.status = 409) :
    (add_contact lr acct req store fetchFails insertFails).2 = store := by
  cases hf : add_contact_flow lr acct req store fetchFails insertFails with
  | ok ns => simp [add_contact, hf] at h
  | error e => cases e <;> simp [add_contact, hf]

/-- Witness for C6: a duplicate-label rejection (409) leaves the store
with exactly its previous single row. -/
theorem add_contact_no_partial_writes_witness :
    (add_contact ("883745000".data) ("1234567890".data)
      ⟨some ("bob".data), some ("5555555555".data), some ("111000025".data),
       some true⟩
      [⟨"bob".data, "1111111111".data, "222222222".data, false⟩]
      false false).2 =
      [⟨"bob".data, "1111111111".data, "222222222".data, false⟩] :=
  add_contact_no_partial_writes ("883745000".data) ("1234567890".data)
    ⟨some ("bob".data), some ("5555555555".data), some ("111000025".data),
     some true⟩
    [⟨"bob".data, "1111111111".data, "222222222".data, false⟩]
    false false (Or.inr rfl)

/-- C7: when the candidate passes validation and is not a
self-reference, a store error raised by the fetch step propagates
unchanged through the authorization checker to the handler, which maps
it to the 500 server-error response; it is not turned into a duplicate
rejection or a success, and the store is unchanged. -/
theorem store_error_propagates (lr acct l a r : PyStr) (e : Bool)
    (store : List Contact) (insertFails : Bool)
    (hval : validate_new_contact lr ⟨some l, some a, some r, some e⟩ =
      Except.ok ())
    (hself : (a == acct && r == lr) = false) :
    add_contact lr acct ⟨some l, some a, some r, some e⟩ store true insertFails =
      ({ status := 500, body := "failed to add contact" }, store) := by
  have hflow : add_contact_flow lr acct ⟨some l, some a, some r, some e⟩
      store true insertFails = Except.error PyExc.sqlAlchemyError := by
    simp [add_contact_flow, hval, toContact, check_contact_allowed, hself]
    rfl
  simp [add_contact, hflow]

/-- Witness for C7: a valid external candidate with a failing fetch gets
the 500 response and the (empty) store stays empty. -/
theorem store_error_propagates_witness :
    add_contact ("883745000".data) ("1234567890".data)
      ⟨some ("Savings".data), some ("9876543210".data), some ("111000025".data),
       some true⟩ [] true false =
      ({ status := 500, body := "failed to add contact" }, []) :=
  store_error_propagates ("883745000".data) ("1234567890".data)
    ("Savings".data) ("9876543210".data) ("111000025".data) true [] false
    rfl rfl

/-- C1 counterexample: with an existing list whose first entry matches
the candidate's label and whose second entry matches the candidate's
`(account_num, routing_num)` pair, the checker reports the
duplicate-label error, not the duplicate-account error: the two checks
are interleaved in a single scan, not run one after the other over the
whole list. -/
theorem duplicate_precedence_cex :
    let cand : Contact := ⟨"bob".data, "1111111111".data, "222222222".data, false⟩
    let e1 : Contact := ⟨"bob".data, "3333333333".data, "222222222".data, false⟩
    let e2 : Contact := ⟨"carol".data, "1111111111".data, "222222222".data, false⟩
    e2.account_num = cand.account_num ∧ e2.routing_num = cand.routing_num ∧
    e1.label = cand.label ∧ e1.account_num ≠ cand.account_num ∧
    check_contact_allowed ("883745000".data) ("9999999999".data) cand
        (Except.ok [e1, e2]) =
      Except.error (PyExc.valueError "contact already exists with that label") ∧
    check_contact_allowed ("883745000".data) ("9999999999".data) cand
        (Except.ok [e1, e2]) ≠
      Except.error (PyExc.valueError "account already exists as a contact") := by
  refine ⟨rfl, rfl, rfl, by decide, rfl, ?_⟩
  intro h
  have h0 : (Except.error (PyExc.valueError "contact already exists with that label") :
      Except PyExc Unit) =
      Except.error (PyExc.valueError "account already exists as a contact") := h
  have h1 : PyExc.valueError "contact already exists with that label" =
      PyExc.valueError "account already exists as a contact" := by
    injection h0
  have h2 : ("contact already exists with that label" : String) =
      "account already exists as a contact" := by
    injection h1
  exact absurd h2 (by decide)

/-- C1 (amended): the duplicate checks are interleaved in one scan of
the existing list, the account comparison coming first within each
entry; hence when the entries before `mid` violate neither rule, `mid`
matches the candidate's label but not its `(account_num, routing_num)`
pair, and the pair-matching entry lies after `mid`, the checker reports
the duplicate-label error. -/
theorem duplicate_label_reported_when_earlier (lr acct : PyStr) (cand : Contact)
    (pre : List Contact) (mid : Contact) (rest : List Contact)
    (hself : ¬(cand.account_num = acct ∧ cand.routing_num = lr))
    (hpre : ∀ p ∈ pre,
      ¬(p.account_num = cand.account_num ∧ p.routing_num = cand.routing_num) ∧
        p.label ≠ cand.label)
    (hlab : mid.label = cand.label)
    (hpair : ¬(mid.account_num = cand.account_num ∧
        mid.routing_num = cand.routing_num))
    (_hrest : ∃ q ∈ rest, q.account_num = cand.account_num ∧
        q.routing_num = cand.routing_num) :
    check_contact_allowed lr acct cand (Except.ok (pre ++ mid :: rest)) =
      Except.error (PyExc.valueError "contact already exists with that label") := by
  have hb : (cand.account_num == acct && cand.routing_num == lr) = false := by
    cases hA : cand.account_num == acct <;> cases hR : cand.routing_num == lr <;>
      simp_all [beq_iff_eq]
  simp only [check_contact_allowed, hb, Bool.false_eq_true, if_false]
  induction pre with
  | nil =>
    have hc1 : (mid.account_num == cand.account_num &&
        mid.routing_num == cand.routing_num) = false := by
      cases hA : mid.account_num == cand.account_num <;>
        cases hR : mid.routing_num == cand.routing_num <;>
        simp_all [beq_iff_eq]
    simp [duplicate_scan, hc1, hlab]
  | cons p ps ih =>
    have h1 := hpre p (List.mem_cons_self p ps)
    have hc1 : (p.account_num == cand.account_num &&
        p.routing_num == cand.routing_num) = false := by
      cases hA : p.account_num == cand.account_num <;>
        cases hR : p.routing_num == cand.routing_num <;>
        simp_all [beq_iff_eq]
    have hc2 : (p.label == cand.label) = false := by
      simpa [beq_eq_false_iff_ne] using h1.2
    simp only [List.cons_append, duplicate_scan, hc1, hc2, Bool.false_eq_true,
      if_false]
    exact ih (fun d hd => hpre d (List.mem_cons_of_mem p hd))

/-- Witness for the amended C1: a concrete list with a clean entry, then
the label conflict, then the account-pair conflict, reporting the
duplicate-label error. -/
theorem duplicate_label_reported_when_earlier_witness :
    check_contact_allowed ("883745000".data) ("9999999999".data)
      ⟨"bob".data, "1111111111".data, "222222222".data, false⟩
      (Except.ok ([⟨"dave".data, "4444444444".data, "999999999".data, true⟩] ++
        ⟨"bob".data, "3333333333".data, "222222222".data, false⟩ ::
          [⟨"carol".data, "1111111111".data, "222222222".data, false⟩])) =
      Except.error (PyExc.valueError "contact already exists with that label") :=
  duplicate_label_reported_when_earlier ("883745000".data) ("9999999999".data)
    ⟨"bob".data, "1111111111".data, "222222222".data, false⟩
    [⟨"dave".data, "4444444444".data, "999999999".data, true⟩]
    ⟨"bob".data, "3333333333".data, "222222222".data, false⟩
    [⟨"carol".data, "1111111111".data, "222222222".data, false⟩]
    (by decide) (by decide) rfl (by decide)
    ⟨⟨"carol".data, "1111111111".data, "222222222".data, false⟩,
      List.mem_singleton.mpr rfl, rfl, rfl⟩

/-- C2 counterexample: a 31-character label — 30 alphanumerics followed
by a newline — passes validation (with the other fields valid), because
Python's `$` also matches just before a trailing newline; the claim says
every label exceeding 30 characters fails with the invalid-label
error. -/
theorem label_trailing_newline_cex :
    (List.replicate 30 'a' ++ ['\n']).length = 31 ∧
    validate_new_contact ("883745000".data)
      ⟨some (List.replicate 30 'a' ++ ['\n']), some ("1234567890".data),
       some ("123456789".data), some false⟩ = Except.ok () :=
  ⟨rfl, rfl⟩

/-- C2 (amended): with the other fields valid, the label check passes
exactly the strings that match `[0-9a-zA-Z][0-9a-zA-Z ]{0,29}` in full,
or that consist of such a match followed by one trailing newline
(Python `$` semantics); every other label fails with the invalid-label
error. -/
theorem validate_label_characterization (lr a r label : PyStr) (e : Bool)
    (ha : reMatchDigits 10 a = true) (hr : reMatchDigits 9 r = true)
    (hx : (e && r == lr) = false) :
    (validate_new_contact lr ⟨some label, some a, some r, some e⟩ = Except.ok ()
        ∨ validate_new_contact lr ⟨some label, some a, some r, some e⟩ =
          Except.error (PyExc.userWarning "invalid account label"))
  ∧ (validate_new_contact lr ⟨some label, some a, some r, some e⟩ = Except.ok ()
        ↔ (specLabelOk label = true ∨
           (label.getLast? = some '\n' ∧ specLabelOk label.dropLast = true))) := by
  have hcore : reMatchLabel label = true ↔
      (specLabelOk label = true ∨
       (label.getLast? = some '\n' ∧ specLabelOk label.dropLast = true)) := by
    simp [reMatchLabel, specLabelOk_eq_labelCore]
  cases hl : reMatchLabel label
  · refine ⟨Or.inr ?_, ?_⟩
    · simp [validate_new_contact, ha, hr, hx, hl]
    · rw [← hcore, hl]
      constructor
      · intro h
        exfalso
        simp [validate_new_contact, ha, hr, hx, hl] at h
      · intro h
        cases h
  · refine ⟨Or.inl ?_, ?_⟩
    · simp [validate_new_contact, ha, hr, hx, hl]
    · rw [← hcore, hl]
      constructor
      · intro _
        rfl
      · intro _
        simp [validate_new_contact, ha, hr, hx, hl]

/-- Witness for the amended C2: a plain well-formed label is accepted
via the characterization. -/
theorem validate_label_characterization_witness :
    validate_new_contact ("883745000".data)
      ⟨some ("My Savings".data), some ("1234567890".data),
       some ("123456789".data), some false⟩ = Except.ok () :=
  ((validate_label_characterization ("883745000".data) ("1234567890".data)
      ("123456789".data) ("My Savings".data) false rfl rfl rfl).2).mpr
    (Or.inl (by decide))
